import Mathlib

/-!
Verification of the synapse backend's document lifecycle engine and
retrieval filtering pipeline.

The definitions below are a shallow embedding of the Python source:

* `backend/pipelines.py` — `DocumentScoreFilter.run`, `DocumentLimiter.run`;
* `backend/schemas.py` — the `ChatRequest.context_limit` field constraint;
* `backend/repositories.py` / `backend/repositories_async.py` —
  `DocumentRepository.update_status`, `DocumentRepository.get_by_id`,
  `DocumentRepository.get_failed_documents_for_retry` and their async twins
  (the async methods run the same queries with the same logic);
* `backend/tasks.py` — `process_document_background`.

Modelling conventions:
* Timestamps are `Nat` (seconds).  The source stores ISO-8601 UTC strings and
  compares them with SQL string comparison; for the fixed-width ISO format the
  lexicographic order on those strings coincides with chronological order, so a
  numeric timestamp model preserves all comparison behaviour.
* The documents table is a `List DocRecord`; `UPDATE ... WHERE id = ?` is a map
  that rewrites every row whose id matches (row ids are unique in the real
  database, but we do not need that assumption), and a `SELECT ... WHERE id = ?`
  followed by `fetchone()` is `List.find?`.
* Similarity scores are `ℚ`.  The source manipulates Python floats, but every
  operation involved (`≥`, subtraction, `min`/`max`) is exact on the decimal
  constants at issue, so the rational model is faithful.
* `datetime.utcnow()` is called twice inside `update_status` (once for
  `updated_at`, once as the base of `next_attempt_at`); both calls happen in the
  same update and are modelled by a single `now` parameter.
-/

/-- Record of the `documents` table (plus the tag and link relations that
`get_by_id` attaches to the returned dict). -/
structure DocRecord where
  id : String
  type : String
  title : String
  content : String
  source_url : Option String
  status : String
  processing_error : Option String
  last_error : Option String
  retry_count : Nat
  next_attempt_at : Option Nat
  created_at : Nat
  updated_at : Nat
  tags : List String
  linked_document_ids : List String
deriving DecidableEq

/-- Python truthiness of an `Optional[str]` value: `None` and the empty string
are falsy (this is the `if processing_error:` test in `update_status`). -/
def pyTruthy : Option String → Bool
  | none => false
  | some s => s != ""

/-- Embeds `error_msg[:500] if len(error_msg) > 500 else error_msg` from
`process_document_background` in `backend/tasks.py`. -/
def truncateError (msg : String) : String :=
  if msg.length > 500 then msg.take 500 else msg

/-- Embeds the backoff expression
`delay_seconds = min(60 * (2 ** retry_count), 600)` computed inside
`update_status` (both `repositories.py` and `repositories_async.py`). -/
def delay_seconds (retry_count : Nat) : Nat :=
  min (60 * 2 ^ retry_count) 600

/-- Embeds `SELECT retry_count FROM documents WHERE id = ?` followed by
`retry_count = result[0] if result else 0` in `update_status`. -/
def lookupRetryCount (db : List DocRecord) (doc_id : String) : Nat :=
  match db.find? (fun d => d.id == doc_id) with
  | some d => d.retry_count
  | none => 0

/-- Embeds `DocumentRepository.update_status` (`backend/repositories.py`,
lines 186–225).  With a truthy `processing_error` it reads the current
`retry_count`, computes the exponential-backoff delay, and issues the UPDATE
that sets status, both error columns, `updated_at`, `retry_count + 1` and
`next_attempt_at`; otherwise it issues the UPDATE that sets only status and
`updated_at`. -/
def update_status (db : List DocRecord) (now : Nat) (doc_id status : String)
    (processing_error : Option String) : List DocRecord :=
  if pyTruthy processing_error then
    let retry_count := lookupRetryCount db doc_id
    let next_attempt := now + delay_seconds retry_count
    db.map (fun d =>
      if d.id == doc_id then
        { d with
          status := status
          processing_error := processing_error
          last_error := processing_error
          updated_at := now
          retry_count := d.retry_count + 1
          next_attempt_at := some next_attempt }
      else d)
  else
    db.map (fun d =>
      if d.id == doc_id then
        { d with status := status, updated_at := now }
      else d)

/-- Embeds `DocumentRepositoryAsync.update_status`
(`backend/repositories_async.py`, lines 209–260): the async variant runs the
same SELECT and the same two UPDATE statements as the sync one. -/
def update_status_async (db : List DocRecord) (now : Nat) (doc_id status : String)
    (processing_error : Option String) : List DocRecord :=
  if pyTruthy processing_error then
    let retry_count := lookupRetryCount db doc_id
    let next_attempt := now + delay_seconds retry_count
    db.map (fun d =>
      if d.id == doc_id then
        { d with
          status := status
          processing_error := processing_error
          last_error := processing_error
          updated_at := now
          retry_count := d.retry_count + 1
          next_attempt_at := some next_attempt }
      else d)
  else
    db.map (fun d =>
      if d.id == doc_id then
        { d with status := status, updated_at := now }
      else d)

/-- Embeds `DocumentRepository.get_by_id`: `SELECT * FROM documents WHERE
id = ?` plus `fetchone()` (the tag/link sub-queries fill fields that our record
already carries). -/
def get_by_id (db : List DocRecord) (doc_id : String) : Option DocRecord :=
  db.find? (fun d => d.id == doc_id)

/-- The row predicate of the retry query: `status = 'failed' AND retry_count <
? AND (next_attempt_at IS NULL OR next_attempt_at <= ?)`. -/
def retryEligible (max_retries now : Nat) (d : DocRecord) : Bool :=
  d.status == "failed" && decide (d.retry_count < max_retries) &&
    (match d.next_attempt_at with
     | none => true
     | some t => decide (t ≤ now))

/-- Embeds `DocumentRepository.get_failed_documents_for_retry`
(`backend/repositories.py`, lines 227–253): filter by the retry predicate,
`ORDER BY created_at ASC`, `LIMIT 50`. -/
def get_failed_documents_for_retry (db : List DocRecord) (now max_retries : Nat) :
    List DocRecord :=
  (((db.filter (retryEligible max_retries now)).insertionSort
    (fun a b => a.created_at ≤ b.created_at)).take 50)

/-- Embeds `DocumentRepositoryAsync.get_failed_documents_for_retry`
(`backend/repositories_async.py`, lines 262–292): the async variant runs the
identical query. -/
def get_failed_documents_for_retry_async (db : List DocRecord) (now max_retries : Nat) :
    List DocRecord :=
  (((db.filter (retryEligible max_retries now)).insertionSort
    (fun a b => a.created_at ≤ b.created_at)).take 50)

/-- Embeds `process_document_background` (`backend/tasks.py`, lines 27–116) on
the store state.  The indexing-pipeline run is the only effect not determined
by the store, so its outcome is the parameter `pipelineOk` (with
`pipelineError` the `str(e)` of the raised exception when it fails).  The
function: sets status to `processing` unconditionally, fetches the record,
raises `ValueError` when it is missing, runs the pipeline, and on success sets
`completed`; any raised exception is caught and answered with
`update_status(doc_id, "failed", truncated_error)`. -/
def process_document_background (db : List DocRecord) (now : Nat) (doc_id : String)
    (pipelineOk : Bool) (pipelineError : String) : List DocRecord :=
  let db1 := update_status db now doc_id "processing" none
  match get_by_id db1 doc_id with
  | none =>
      update_status db1 now doc_id "failed"
        (some (truncateError ("Document " ++ doc_id ++ " not found in database")))
  | some _ =>
      if pipelineOk then
        update_status db1 now doc_id "completed" none
      else
        update_status db1 now doc_id "failed" (some (truncateError pipelineError))

/-- Document as seen by the querying pipeline: a Haystack document carrying a
similarity score (retriever output always carries one). -/
structure HDoc where
  content : String
  score : ℚ
deriving DecidableEq

/-- Embeds `DocumentScoreFilter.run` (`backend/pipelines.py`, lines 133–162):
`best_score` is the first document's score, `relative_threshold = best_score -
relative_margin`, and a document is kept iff `doc_score >= min_score and
doc_score >= relative_threshold`; an empty input yields an empty output. -/
def DocumentScoreFilter_run (min_score relative_margin : ℚ) (documents : List HDoc) :
    List HDoc :=
  match documents with
  | [] => []
  | d0 :: _ =>
      let best_score := d0.score
      let relative_threshold := best_score - relative_margin
      documents.filter (fun d =>
        decide (d.score ≥ min_score) && decide (d.score ≥ relative_threshold))

/-- The per-candidate keep condition of `DocumentScoreFilter.run`, abstracted
over the best score: `doc_score >= min_score and doc_score >=
best_score - relative_margin`. -/
def scorePred (min_score relative_margin best_score : ℚ) (d : HDoc) : Bool :=
  decide (d.score ≥ min_score) && decide (d.score ≥ best_score - relative_margin)

/-- Embeds `DocumentLimiter.run` (`backend/pipelines.py`, lines 176–197):
`actual_limit = limit if limit is not None else default_limit`, clamped by
`max(1, min(actual_limit, 20))`, then `documents[:actual_limit]` (the
`if documents else []` guard in the source is the same as slicing the empty
list). -/
def DocumentLimiter_run (default_limit : Int) (documents : List HDoc)
    (limit : Option Int) : List HDoc :=
  let actual_limit : Int :=
    match limit with
    | some l => l
    | none => default_limit
  let actual_limit := max 1 (min actual_limit 20)
  documents.take actual_limit.toNat

/-- Embeds the `ChatRequest.context_limit` field constraint
(`backend/schemas.py`, line 128): `Optional[int] = Field(5, ge=1, le=20)` —
a provided value is accepted by request validation iff it lies in [1, 20]. -/
def ChatRequest_context_limit_valid (context_limit : Option Int) : Bool :=
  match context_limit with
  | none => true
  | some v => decide (1 ≤ v) && decide (v ≤ 20)

/-- Concrete document record used to instantiate the lifecycle theorems: a
completed document with no retry history. -/
def sampleDoc : DocRecord :=
  { id := "X", type := "note", title := "t", content := "hello", source_url := none,
    status := "completed", processing_error := none, last_error := none,
    retry_count := 0, next_attempt_at := none, created_at := 5, updated_at := 5,
    tags := ["a"], linked_document_ids := [] }

/-- Concrete document record eligible for the retry sweep: failed once, with an
elapsed `next_attempt_at`. -/
def retryDoc : DocRecord :=
  { id := "R", type := "note", title := "r", content := "c", source_url := none,
    status := "failed", processing_error := some "boom", last_error := some "boom",
    retry_count := 1, next_attempt_at := some 50, created_at := 3, updated_at := 60,
    tags := [], linked_document_ids := [] }

/-- Candidate documents of end-to-end scenario B of the spec. -/
def dA : HDoc := { content := "A", score := 9/10 }

/-- Candidate B of scenario B. -/
def dB : HDoc := { content := "B", score := 7/10 }

/-- Candidate C of scenario B. -/
def dC : HDoc := { content := "C", score := 1/2 }

/-- Candidate D of scenario B. -/
def dD : HDoc := { content := "D", score := 1/5 }

/-- Candidate with an integral score, used for kernel-decidable witnesses. -/
def dW : HDoc := { content := "W", score := 2 }

/-- Rewriting the rows that match `doc_id` with an id-preserving function
commutes with looking up the first row that matches `doc_id`. -/
theorem find?_map_update (db : List DocRecord) (doc_id : String)
    (f : DocRecord → DocRecord) (hf : ∀ r, (f r).id = r.id) :
    (db.map (fun r => if r.id == doc_id then f r else r)).find? (fun r => r.id == doc_id)
      = (db.find? (fun r => r.id == doc_id)).map f := by
  induction db with
  | nil => rfl
  | cons a l ih =>
    by_cases h : (a.id == doc_id) = true
    · have h2 : ((f a).id == doc_id) = true := by rw [hf a]; exact h
      rw [List.map_cons, if_pos h,
        List.find?_cons_of_pos (p := fun r : DocRecord => r.id == doc_id) _ h2,
        List.find?_cons_of_pos (p := fun r : DocRecord => r.id == doc_id) _ h]
      rfl
    · rw [List.map_cons, if_neg h,
        List.find?_cons_of_neg (p := fun r : DocRecord => r.id == doc_id) _ h,
        List.find?_cons_of_neg (p := fun r : DocRecord => r.id == doc_id) _ h, ih]

/-- An UPDATE whose WHERE clause matches no row leaves the table unchanged. -/
theorem map_update_of_not_mem (db : List DocRecord) (doc_id : String)
    (f : DocRecord → DocRecord) (h : ∀ r ∈ db, (r.id == doc_id) = false) :
    db.map (fun r => if r.id == doc_id then f r else r) = db := by
  induction db with
  | nil => rfl
  | cons a l ih =>
    rw [List.map_cons, if_neg (by simp [h a (List.mem_cons_self a l)]),
      ih (fun r hr => h r (List.mem_cons_of_mem a hr))]

/-- `update_status` for an id that matches no row is the identity, whatever the
status and error arguments are. -/
theorem update_status_not_found (db : List DocRecord) (now : Nat)
    (doc_id status : String) (err : Option String)
    (h : ∀ r ∈ db, (r.id == doc_id) = false) :
    update_status db now doc_id status err = db := by
  unfold update_status
  split
  · exact map_update_of_not_mem db doc_id _ h
  · exact map_update_of_not_mem db doc_id _ h

/-- Effect of `update_status` on the looked-up row in the error branch: all the
failure bookkeeping happens in one row rewrite, with the backoff computed from
the retry count read before the increment. -/
theorem update_status_find?_truthy (db : List DocRecord) (now : Nat)
    (doc_id status : String) (err : Option String) (d : DocRecord)
    (hp : pyTruthy err = true)
    (hd : db.find? (fun r => r.id == doc_id) = some d) :
    (update_status db now doc_id status err).find? (fun r => r.id == doc_id) =
      some { d with
        status := status, processing_error := err, last_error := err,
        updated_at := now, retry_count := d.retry_count + 1,
        next_attempt_at := some (now + delay_seconds d.retry_count) } := by
  have hrc : lookupRetryCount db doc_id = d.retry_count := by
    rw [lookupRetryCount, hd]
  have hu : update_status db now doc_id status err =
      db.map (fun r =>
        if r.id == doc_id then
          { r with
            status := status, processing_error := err, last_error := err,
            updated_at := now, retry_count := r.retry_count + 1,
            next_attempt_at := some (now + delay_seconds (lookupRetryCount db doc_id)) }
        else r) := by
    unfold update_status
    rw [if_pos hp]
  rw [hu, find?_map_update db doc_id (fun r =>
      { r with
        status := status, processing_error := err, last_error := err,
        updated_at := now, retry_count := r.retry_count + 1,
        next_attempt_at := some (now + delay_seconds (lookupRetryCount db doc_id)) })
    (fun r => rfl), hd, hrc]
  rfl

/-- Effect of `update_status` on the looked-up row in the plain branch: only
status and `updated_at` are rewritten. -/
theorem update_status_find?_untruthy (db : List DocRecord) (now : Nat)
    (doc_id status : String) (err : Option String) (d : DocRecord)
    (hp : pyTruthy err = false)
    (hd : db.find? (fun r => r.id == doc_id) = some d) :
    (update_status db now doc_id status err).find? (fun r => r.id == doc_id) =
      some { d with status := status, updated_at := now } := by
  have hu : update_status db now doc_id status err =
      db.map (fun r =>
        if r.id == doc_id then
          { r with status := status, updated_at := now }
        else r) := by
    unfold update_status
    rw [if_neg (by simp [hp])]
  rw [hu, find?_map_update db doc_id (fun r =>
      { r with status := status, updated_at := now }) (fun r => rfl), hd]
  rfl

/-- Filtering with a pointwise weaker predicate keeps at least as many
elements. -/
theorem length_filter_mono {α : Type} (l : List α) (p q : α → Bool)
    (h : ∀ a ∈ l, p a = true → q a = true) :
    (l.filter p).length ≤ (l.filter q).length := by
  induction l with
  | nil => simp
  | cons a t ih =>
    have ih' := ih (fun x hx hp => h x (List.mem_cons_of_mem a hx) hp)
    by_cases hpa : p a = true
    · rw [List.filter_cons_of_pos hpa, List.filter_cons_of_pos (h a (List.mem_cons_self a t) hpa)]
      simpa using ih'
    · rw [List.filter_cons_of_neg (by simpa using hpa)]
      by_cases hqa : q a = true
      · rw [List.filter_cons_of_pos hqa]
        exact Nat.le_succ_of_le ih'
      · rw [List.filter_cons_of_neg (by simpa using hqa)]
        exact ih'

/-- C1: when a document transitions into `failed` with an error, the backoff
delay equals min(60 * 2^retry_count, 600) seconds exactly, computed from the
retry_count read before it is incremented for the current failure, with no
jitter, and `next_attempt_at` is set to the current time plus that delay in
the same row update that increments `retry_count`; the async repository
performs the identical update. -/
theorem C1_failed_transition_backoff (db : List DocRecord) (now : Nat)
    (doc_id : String) (err : Option String) (d : DocRecord)
    (hp : pyTruthy err = true)
    (hd : db.find? (fun r => r.id == doc_id) = some d) :
    (update_status db now doc_id "failed" err).find? (fun r => r.id == doc_id) =
      some { d with
        status := "failed", processing_error := err, last_error := err,
        updated_at := now, retry_count := d.retry_count + 1,
        next_attempt_at := some (now + min (60 * 2 ^ d.retry_count) 600) } ∧
    update_status_async db now doc_id "failed" err =
      update_status db now doc_id "failed" err := by
  refine ⟨?_, rfl⟩
  have h := update_status_find?_truthy db now doc_id "failed" err d hp hd
  simpa [delay_seconds] using h

/-- Witness for C1 at a concrete store: one completed document with
`retry_count = 0` fails with error "boom" at time 100. -/
theorem C1_failed_transition_backoff_witness :
    (update_status [sampleDoc] 100 "X" "failed" (some "boom")).find?
        (fun r => r.id == "X") =
      some { sampleDoc with
        status := "failed", processing_error := some "boom", last_error := some "boom",
        updated_at := 100, retry_count := sampleDoc.retry_count + 1,
        next_attempt_at := some (100 + min (60 * 2 ^ sampleDoc.retry_count) 600) } ∧
    update_status_async [sampleDoc] 100 "X" "failed" (some "boom") =
      update_status [sampleDoc] 100 "X" "failed" (some "boom") :=
  C1_failed_transition_backoff [sampleDoc] 100 "X" (some "boom") sampleDoc
    (by decide) (by decide)

/-- C5 counterexample: the claim says the delay equals the 600-second cap from
the 4th failure (retry_count = 3 before increment) onward, but the code's
delay at retry_count = 3 is min(60 * 8, 600) = 480 seconds, not 600. -/
theorem C5_cap_not_at_retry_three : delay_seconds 3 = 480 ∧ delay_seconds 3 ≠ 600 := by
  decide

/-- C5 amended: the delay for the first failure is 60 seconds, for the second
120, for the third 240, for the fourth 480, and the 600-second cap applies
from the fifth failure (retry_count = 4 before increment) onward. -/
theorem C5_backoff_delay_schedule :
    delay_seconds 0 = 60 ∧ delay_seconds 1 = 120 ∧ delay_seconds 2 = 240 ∧
    delay_seconds 3 = 480 ∧ ∀ rc : Nat, 4 ≤ rc → delay_seconds rc = 600 := by
  refine ⟨by decide, by decide, by decide, by decide, fun rc h => ?_⟩
  have h16 : (16 : Nat) ≤ 2 ^ rc := by
    calc (16 : Nat) = 2 ^ 4 := by norm_num
    _ ≤ 2 ^ rc := Nat.pow_le_pow_right (by norm_num) h
  have h600 : (600 : Nat) ≤ 60 * 2 ^ rc := by
    have := Nat.mul_le_mul_left 60 h16
    omega
  simp [delay_seconds, Nat.min_eq_right h600]

/-- Witness for C5 amended: the cap is reached at retry counts 4 and 10. -/
theorem C5_backoff_delay_schedule_witness :
    delay_seconds 4 = 600 ∧ delay_seconds 10 = 600 :=
  ⟨C5_backoff_delay_schedule.2.2.2.2 4 (by decide),
   C5_backoff_delay_schedule.2.2.2.2 10 (by decide)⟩

/-- C7: when the document record is missing at fetch time, background
processing leaves the store unchanged — no record is transitioned to `failed`
and no retry is scheduled, whatever the pipeline outcome would have been. -/
theorem C7_missing_record_no_transition (db : List DocRecord) (now : Nat)
    (doc_id : String) (pipelineOk : Bool) (pipelineError : String)
    (h : get_by_id db doc_id = none) :
    process_document_background db now doc_id pipelineOk pipelineError = db := by
  have hids : ∀ r ∈ db, (r.id == doc_id) = false := by
    rw [get_by_id, List.find?_eq_none] at h
    intro r hr
    simpa using h r hr
  have h1 : update_status db now doc_id "processing" none = db :=
    update_status_not_found db now doc_id "processing" none hids
  simp only [process_document_background, h1, h]
  exact update_status_not_found db now doc_id "failed" _ hids

/-- Witness for C7: processing id "Z", absent from a store holding only the
document with id "X", changes nothing. -/
theorem C7_missing_record_no_transition_witness :
    process_document_background [sampleDoc] 7 "Z" true "x" = [sampleDoc] :=
  C7_missing_record_no_transition [sampleDoc] 7 "Z" true "x" (by decide)

/-- C10: `update_status` called without an error message rewrites only the
status and `updated_at` fields: id, type, title, content, source_url, both
error columns, retry_count, next_attempt_at, created_at, tags and linked
documents are all unchanged, row by row; the async repository performs the
identical update. -/
theorem C10_update_status_frame (db : List DocRecord) (now : Nat)
    (doc_id status : String) :
    List.Forall₂ (fun d r : DocRecord =>
        r.id = d.id ∧ r.type = d.type ∧ r.title = d.title ∧ r.content = d.content ∧
        r.source_url = d.source_url ∧ r.processing_error = d.processing_error ∧
        r.last_error = d.last_error ∧ r.retry_count = d.retry_count ∧
        r.next_attempt_at = d.next_attempt_at ∧ r.created_at = d.created_at ∧
        r.tags = d.tags ∧ r.linked_document_ids = d.linked_document_ids)
      db (update_status db now doc_id status none) ∧
    update_status_async db now doc_id status none =
      update_status db now doc_id status none := by
  refine ⟨?_, rfl⟩
  have hu : update_status db now doc_id status none =
      db.map (fun r =>
        if r.id == doc_id then { r with status := status, updated_at := now } else r) := by
    unfold update_status
    rw [if_neg (by simp [pyTruthy])]
  rw [hu, List.forall₂_map_right_iff, List.forall₂_same]
  intro x hx
  by_cases h : (x.id == doc_id) = true <;> simp [h]

/-- Unfolding of the retry-eligibility row predicate into its three clauses. -/
theorem retryEligible_iff (max_retries now : Nat) (r : DocRecord) :
    retryEligible max_retries now r = true ↔
      (r.status = "failed" ∧ r.retry_count < max_retries ∧
        (r.next_attempt_at = none ∨ ∃ t, r.next_attempt_at = some t ∧ t ≤ now)) := by
  unfold retryEligible
  cases hna : r.next_attempt_at <;> simp [hna, and_assoc]

/-- C2: `get_failed_documents_for_retry` returns exactly the records with
status `failed`, `retry_count < max_retries` and an absent or elapsed
`next_attempt_at`, ordered by `created_at` ascending and capped at 50 results
("exactly" holds whenever at most 50 rows match; the cap and the soundness
direction hold unconditionally); consequently a record with `retry_count ≥
max_retries` is never returned; the async repository runs the identical
query. -/
theorem C2_find_retryable_exact (db : List DocRecord) (now max_retries : Nat) :
    (∀ r ∈ get_failed_documents_for_retry db now max_retries,
        r ∈ db ∧ r.status = "failed" ∧ r.retry_count < max_retries ∧
          (r.next_attempt_at = none ∨ ∃ t, r.next_attempt_at = some t ∧ t ≤ now)) ∧
    List.Sorted (fun a b : DocRecord => a.created_at ≤ b.created_at)
      (get_failed_documents_for_retry db now max_retries) ∧
    (get_failed_documents_for_retry db now max_retries).length ≤ 50 ∧
    (db.countP (retryEligible max_retries now) ≤ 50 →
      ∀ r : DocRecord, r ∈ get_failed_documents_for_retry db now max_retries ↔
        r ∈ db ∧ retryEligible max_retries now r = true) ∧
    (∀ r : DocRecord, max_retries ≤ r.retry_count →
      r ∉ get_failed_documents_for_retry db now max_retries) ∧
    get_failed_documents_for_retry_async db now max_retries =
      get_failed_documents_for_retry db now max_retries := by
  have hmem : ∀ r ∈ get_failed_documents_for_retry db now max_retries,
      r ∈ db ∧ retryEligible max_retries now r = true := by
    intro r hr
    have h1 : r ∈ (db.filter (retryEligible max_retries now)).insertionSort
        (fun a b => a.created_at ≤ b.created_at) := List.mem_of_mem_take hr
    have h2 : r ∈ db.filter (retryEligible max_retries now) :=
      (List.mem_insertionSort _).1 h1
    exact ⟨List.mem_of_mem_filter h2, List.of_mem_filter h2⟩
  refine ⟨?_, ?_, ?_, ?_, ?_, rfl⟩
  · intro r hr
    exact ⟨(hmem r hr).1, (retryEligible_iff max_retries now r).1 (hmem r hr).2⟩
  · haveI : IsTotal DocRecord (fun a b => a.created_at ≤ b.created_at) :=
      ⟨fun a b => Nat.le_total _ _⟩
    haveI : IsTrans DocRecord (fun a b => a.created_at ≤ b.created_at) :=
      ⟨fun a b c hab hbc => Nat.le_trans hab hbc⟩
    exact List.Pairwise.sublist (List.take_sublist _ _) (List.sorted_insertionSort _ _)
  · unfold get_failed_documents_for_retry
    rw [List.length_take]
    exact Nat.min_le_left _ _
  · intro hc r
    have hlen : ((db.filter (retryEligible max_retries now)).insertionSort
        (fun a b => a.created_at ≤ b.created_at)).length ≤ 50 := by
      rw [List.length_insertionSort, ← List.countP_eq_length_filter]
      exact hc
    unfold get_failed_documents_for_retry
    rw [List.take_of_length_le hlen, List.mem_insertionSort, List.mem_filter]
  · intro r hge hr
    have h := (retryEligible_iff max_retries now r).1 (hmem r hr).2
    omega

/-- Witness for C2 at a concrete store: the failed document with elapsed
`next_attempt_at` is returned by the sweep query. -/
theorem C2_find_retryable_exact_witness :
    retryDoc ∈ get_failed_documents_for_retry [retryDoc] 100 3 :=
  ((C2_find_retryable_exact [retryDoc] 100 3).2.2.2.1 (by decide) retryDoc).mpr
    (by decide)

/-- C3: the score-filtering step keeps a candidate iff its score is at least
`absolute_min_score` and at least `best - relative_margin` where `best` is the
first candidate's score; an empty input yields an empty output; and scenario B
`[(A,0.9),(B,0.7),(C,0.5),(D,0.2)]` with thresholds 0.25/0.25 survives as
exactly `[A, B]`. -/
theorem C3_score_filter_keep_iff (amin margin : ℚ) (d0 : HDoc) (rest : List HDoc) :
    DocumentScoreFilter_run amin margin [] = [] ∧
    (∀ d : HDoc, d ∈ DocumentScoreFilter_run amin margin (d0 :: rest) ↔
        (d ∈ d0 :: rest ∧ d.score ≥ amin ∧ d.score ≥ d0.score - margin)) ∧
    DocumentScoreFilter_run (1/4) (1/4) [dA, dB, dC, dD] = [dA, dB] := by
  refine ⟨rfl, ?_, ?_⟩
  · intro d
    simp [DocumentScoreFilter_run, List.mem_filter, and_assoc]
  · norm_num [DocumentScoreFilter_run, dA, dB, dC, dD, List.filter_cons]

/-- Witness for C3: candidate A survives the scenario-B filtering. -/
theorem C3_score_filter_keep_iff_witness :
    dA ∈ DocumentScoreFilter_run (1/4) (1/4) (dA :: [dB, dC, dD]) :=
  ((C3_score_filter_keep_iff (1/4) (1/4) dA [dB, dC, dD]).2.1 dA).mpr
    ⟨by simp, by norm_num [dA], by norm_num [dA]⟩

/-- C4 counterexample: a ChatRequest carrying context_limit = 25 fails the
field constraint `ge=1, le=20` and is rejected by request validation, so 25 is
never clamped to 20 on the API path (20 itself is accepted). -/
theorem C4_context_limit_25_rejected :
    ChatRequest_context_limit_valid (some 25) = false ∧
    ChatRequest_context_limit_valid (some 20) = true := by decide

/-- C4 amended: the count-limiting step clamps the requested limit (or the
default when none is requested) into the inclusive range [1, 20] and truncates
the input to that many leading elements, preserving order; a limit of 25 given
directly to the limiter is clamped to 20; but an API context_limit of 25 fails
ChatRequest validation and is rejected rather than clamped. -/
theorem C4_count_limit_clamp (dl : Int) (docs : List HDoc) (lim : Option Int) :
    (∃ n : Nat, 1 ≤ n ∧ n ≤ 20 ∧ (n : Int) = max 1 (min (lim.getD dl) 20) ∧
        DocumentLimiter_run dl docs lim = docs.take n) ∧
    DocumentLimiter_run 5 docs (some 25) = docs.take 20 ∧
    ChatRequest_context_limit_valid (some 25) = false := by
  have h1 : (1 : Int) ≤ max 1 (min (lim.getD dl) 20) := le_max_left _ _
  have h2 : max 1 (min (lim.getD dl) 20) ≤ 20 :=
    max_le (by norm_num) (min_le_right _ _)
  refine ⟨⟨(max 1 (min (lim.getD dl) 20)).toNat, by omega, by omega, by omega, ?_⟩, ?_, rfl⟩
  · unfold DocumentLimiter_run
    cases lim <;> rfl
  · norm_num [DocumentLimiter_run]
    omega

/-- Witness for C4 amended at a concrete call: limit 25 truncates to the
leading 20 elements. -/
theorem C4_count_limit_clamp_witness :
    DocumentLimiter_run 5 [dW] (some 25) = List.take 20 [dW] :=
  (C4_count_limit_clamp 5 [dW] (some 25)).2.1

/-- C6 counterexample: the store holds one document with status `completed`
(not `pending`), yet triggering background processing on it does process it —
the store changes, and a pipeline failure lands it in the standard retryable
`failed` state with `retry_count` incremented and a backoff scheduled, not in
a fatal non-retryable condition. -/
theorem C6_nonpending_is_processed :
    process_document_background [sampleDoc] 1000 "X" false "boom" ≠ [sampleDoc] ∧
    (process_document_background [sampleDoc] 1000 "X" false "boom").map
        (fun r => (r.status, r.retry_count, r.next_attempt_at)) =
      [("failed", 1, some 1060)] := by decide

/-- C6 amended: background processing claims no `pending → processing`
precondition — it unconditionally sets the document's status to `processing`
and processes it whatever its current status was; on pipeline success the
document ends `completed`, and on pipeline failure it takes the standard
retryable `failed` transition (errors recorded, `retry_count` incremented and
the backoff `next_attempt_at` scheduled). -/
theorem C6_processing_unconditional (db : List DocRecord) (now : Nat)
    (doc_id : String) (err : String) (d : DocRecord)
    (hd : db.find? (fun r => r.id == doc_id) = some d)
    (herr : truncateError err ≠ "") :
    (process_document_background db now doc_id true err).find?
        (fun r => r.id == doc_id) =
      some { d with status := "completed", updated_at := now } ∧
    (process_document_background db now doc_id false err).find?
        (fun r => r.id == doc_id) =
      some { d with
        status := "failed", processing_error := some (truncateError err),
        last_error := some (truncateError err), updated_at := now,
        retry_count := d.retry_count + 1,
        next_attempt_at := some (now + min (60 * 2 ^ d.retry_count) 600) } := by
  have hd1 : (update_status db now doc_id "processing" none).find?
      (fun r => r.id == doc_id) =
      some { d with status := "processing", updated_at := now } :=
    update_status_find?_untruthy db now doc_id "processing" none d rfl hd
  constructor
  · have h2 := update_status_find?_untruthy
      (update_status db now doc_id "processing" none) now doc_id "completed" none
      { d with status := "processing", updated_at := now } rfl hd1
    simp only [process_document_background, get_by_id, hd1]
    exact h2
  · have hp2 : pyTruthy (some (truncateError err)) = true := by
      simp [pyTruthy]
      exact herr
    have h2 := update_status_find?_truthy
      (update_status db now doc_id "processing" none) now doc_id "failed"
      (some (truncateError err))
      { d with status := "processing", updated_at := now } hp2 hd1
    simp only [process_document_background, get_by_id, hd1]
    simpa [delay_seconds] using h2

/-- Witness for C6 amended: the completed (non-pending) sample document is
processed on both the success and the failure path. -/
theorem C6_processing_unconditional_witness :
    (process_document_background [sampleDoc] 1000 "X" true "boom").find?
        (fun r => r.id == "X") =
      some { sampleDoc with status := "completed", updated_at := 1000 } ∧
    (process_document_background [sampleDoc] 1000 "X" false "boom").find?
        (fun r => r.id == "X") =
      some { sampleDoc with
        status := "failed", processing_error := some (truncateError "boom"),
        last_error := some (truncateError "boom"), updated_at := 1000,
        retry_count := sampleDoc.retry_count + 1,
        next_attempt_at := some (1000 + min (60 * 2 ^ sampleDoc.retry_count) 600) } :=
  C6_processing_unconditional [sampleDoc] 1000 "X" "boom" sampleDoc
    (by decide) (by decide)

/-- C9: for a fixed candidate sequence, raising `relative_margin` never
shrinks the surviving count, and raising `absolute_min_score` never grows
it. -/
theorem C9_filter_threshold_monotone (amin amin' margin margin' : ℚ)
    (docs : List HDoc) (hm : margin ≤ margin') (ha : amin ≤ amin') :
    (DocumentScoreFilter_run amin margin docs).length ≤
        (DocumentScoreFilter_run amin margin' docs).length ∧
    (DocumentScoreFilter_run amin' margin docs).length ≤
        (DocumentScoreFilter_run amin margin docs).length := by
  cases docs with
  | nil => exact ⟨Nat.le_refl _, Nat.le_refl _⟩
  | cons d0 rest =>
    simp only [DocumentScoreFilter_run]
    constructor
    · apply length_filter_mono
      intro a _ hp
      simp only [Bool.and_eq_true, decide_eq_true_eq] at hp ⊢
      obtain ⟨h1, h2⟩ := hp
      exact ⟨h1, by linarith⟩
    · apply length_filter_mono
      intro a _ hp
      simp only [Bool.and_eq_true, decide_eq_true_eq] at hp ⊢
      obtain ⟨h1, h2⟩ := hp
      exact ⟨by linarith, h2⟩

/-- Witness for C9 at a concrete candidate list and thresholds 0/0 vs 0/1. -/
theorem C9_filter_threshold_monotone_witness :
    (DocumentScoreFilter_run 0 0 [dW]).length ≤
        (DocumentScoreFilter_run 0 1 [dW]).length ∧
    (DocumentScoreFilter_run 0 0 [dW]).length ≤
        (DocumentScoreFilter_run 0 0 [dW]).length :=
  C9_filter_threshold_monotone 0 0 0 1 [dW] zero_le_one (le_refl 0)

/-- On a non-empty input, the score filter is a `filter` by `scorePred` at the
head's score. -/
theorem scoreFilter_cons_eq (amin margin : ℚ) (d0 : HDoc) (rest : List HDoc) :
    DocumentScoreFilter_run amin margin (d0 :: rest) =
      (d0 :: rest).filter (scorePred amin margin d0.score) := rfl

/-- Unfolding of the keep condition into its two inequalities. -/
theorem scorePred_true_iff (amin margin best : ℚ) (d : HDoc) :
    scorePred amin margin best d = true ↔
      (amin ≤ d.score ∧ best - margin ≤ d.score) := by
  simp [scorePred, ge_iff_le]

/-- C8: the Retrieval Filter is idempotent — for every candidate sequence
sorted descending by score, running score filtering followed by count
limiting on a sequence that is already the output of those two steps, with
the same thresholds and the same limit, returns it unchanged. -/
theorem C8_retrieval_filter_idempotent (amin margin : ℚ) (dl : Int)
    (lim : Option Int) (docs : List HDoc)
    (hsort : docs.Pairwise (fun a b : HDoc => b.score ≤ a.score)) :
    DocumentLimiter_run dl (DocumentScoreFilter_run amin margin
        (DocumentLimiter_run dl (DocumentScoreFilter_run amin margin docs) lim)) lim =
      DocumentLimiter_run dl (DocumentScoreFilter_run amin margin docs) lim := by
  obtain ⟨n, hn⟩ : ∃ n : Nat, n = (max 1 (min (lim.getD dl) 20)).toNat := ⟨_, rfl⟩
  have hlim : ∀ l : List HDoc, DocumentLimiter_run dl l lim = l.take n := by
    intro l
    rw [hn]
    unfold DocumentLimiter_run
    cases lim <;> rfl
  have hn1 : 1 ≤ n := by
    have h1 : (1 : Int) ≤ max 1 (min (lim.getD dl) 20) := le_max_left _ _
    omega
  cases docs with
  | nil =>
      simp [DocumentScoreFilter_run, hlim]
  | cons d0 rest =>
      by_cases hp0 : scorePred amin margin d0.score d0 = true
      · obtain ⟨m, hm⟩ : ∃ m, n = m + 1 := ⟨n - 1, by omega⟩
        have hfc : ((d0 :: rest).filter (scorePred amin margin d0.score)).take n
            = d0 :: (rest.filter (scorePred amin margin d0.score)).take m := by
          rw [List.filter_cons_of_pos hp0, hm, List.take_succ_cons]
        simp only [hlim, scoreFilter_cons_eq, hfc]
        rw [List.filter_cons_of_pos hp0]
        have hkeep : ∀ d ∈ (rest.filter (scorePred amin margin d0.score)).take m,
            scorePred amin margin d0.score d = true := fun d hd2 =>
          List.of_mem_filter (List.mem_of_mem_take hd2)
        rw [List.filter_eq_self.mpr hkeep, hm, List.take_succ_cons, List.take_take]
        simp
      · have hall : ∀ d ∈ d0 :: rest, ¬ (scorePred amin margin d0.score d = true) := by
          intro d hd2 hpd
          have hconj := (scorePred_true_iff amin margin d0.score d).1 hpd
          have hd0le : d.score ≤ d0.score := by
            rcases List.mem_cons.mp hd2 with h | h
            · exact le_of_eq (congrArg HDoc.score h)
            · exact (List.pairwise_cons.mp hsort).1 d h
          exact hp0 ((scorePred_true_iff amin margin d0.score d0).2
            ⟨le_trans hconj.1 hd0le, le_trans hconj.2 hd0le⟩)
        have hfe : (d0 :: rest).filter (scorePred amin margin d0.score) = [] :=
          List.filter_eq_nil_iff.mpr hall
        simp only [hlim, scoreFilter_cons_eq, hfe]
        simp [DocumentScoreFilter_run, hlim]

/-- Witness for C8 at a concrete sorted candidate list. -/
theorem C8_retrieval_filter_idempotent_witness :
    DocumentLimiter_run 5 (DocumentScoreFilter_run 0 0
        (DocumentLimiter_run 5 (DocumentScoreFilter_run 0 0 [dW]) none)) none =
      DocumentLimiter_run 5 (DocumentScoreFilter_run 0 0 [dW]) none :=
  C8_retrieval_filter_idempotent 0 0 5 none [dW] (by simp)
